import Mathlib

/-!
Verification development for the maylng TypeScript SDK (ts/src of the
repository): a shallow embedding of the validated-request / typed-error
client core (errors.ts, http-client.ts, email-address-service.ts,
email-service.ts, inbox-sdk.ts) together with theorems about its
validation and error-mapping behaviour.

Modelling conventions:
  * The network is abstracted as the outcome of the single round trip an
    operation performs: either a parsed response envelope
    (`TransportResult.success`) or the taxonomy error already produced by
    the response interceptor (`TransportResult.failure`).  Each operation
    is a pure function of its inputs and that outcome, so a result that is
    the same for every outcome is a result produced before any network
    call.
  * Thrown errors become `Except MaylError` results.
  * JavaScript string falsiness (empty string is falsy) is modelled
    explicitly by the `jsOr`-style helpers; `typeof` checks on statically
    typed fields are vacuous under the typed embedding and disappear.
  * `Date` values parsed from wire strings are wrapped as `JsDate`
    (no claim depends on date arithmetic on parsed responses); the
    `scheduledAt` comparison against the current instant, which JavaScript
    performs on epoch-millisecond values, is modelled on `Int`.
-/

/-- JavaScript Date constructed from a wire string
(models `new Date(s)`; claims do not depend on date arithmetic). -/
structure JsDate where
  raw : String
  deriving DecidableEq, Repr

/-- Models the JavaScript expression `a || b` for an optional string `a`
(absent or empty string falls back to `b`), as in
`(data as any)?.error || error.message`. -/
def jsOrOpt : Option String → String → String
  | some s, b => if s = "" then b else s
  | none, b => b

/-- Models the JavaScript expression `a || b` for strings
(empty string is falsy). -/
def jsOrStr (a b : String) : String :=
  if a = "" then b else a

/-- Splits a character list at every occurrence of `sep` (the char-level
counterpart of splitting a string on a one-character separator). -/
def splitOnChar (sep : Char) : List Char → List (List Char)
  | [] => [[]]
  | c :: rest =>
    if c = sep then [] :: splitOnChar sep rest
    else
      match splitOnChar sep rest with
      | [] => [[c]]
      | h :: t => (c :: h) :: t

def startsWithChars : List Char → List Char → Bool
  | _, [] => true
  | [], _ :: _ => false
  | c :: cs, d :: ds => c = d && startsWithChars cs ds

def containsChars (pat : List Char) : List Char → Bool
  | [] => pat.isEmpty
  | c :: rest => startsWithChars (c :: rest) pat || containsChars pat rest

/-- Models `s.includes(sub)`. -/
def jsIncludes (s sub : String) : Bool :=
  containsChars sub.data s.data

/-- ASCII whitespace, standing in for the regex class `\s`. -/
def isJsSpace (c : Char) : Bool :=
  c = ' ' || c = '\t' || c = '\n' || c = '\r' || c = '\x0b' || c = '\x0c'

/-- Models `s.trim()` (over the ASCII whitespace class). -/
def jsTrim (s : String) : String :=
  String.mk (((s.data.dropWhile isJsSpace).reverse.dropWhile isJsSpace).reverse)

/-- Models `parseInt(s)` restricted to decimal notation: skip leading
whitespace, optional sign, then leading decimal digits; `none` stands for
`NaN` (no digits found). -/
def jsParseInt (s : String) : Option Int :=
  let cs := s.data.dropWhile isJsSpace
  let signAndRest : Int × List Char :=
    match cs with
    | '-' :: rest => (-1, rest)
    | '+' :: rest => (1, rest)
    | _ => (1, cs)
  let ds := signAndRest.2.takeWhile Char.isDigit
  if ds.isEmpty then none
  else some (signAndRest.1 * Int.ofNat (ds.foldl (fun acc c => acc * 10 + (c.toNat - 48)) 0))

/-!  ## Error taxonomy (errors.ts)

One closed inductive, one constructor per concrete error class; each
constructor carries exactly the data its class stores. -/

inductive MaylError where
  | authentication (message : String) (requestId : Option String)
  | authorization (message : String) (requestId : Option String)
  | notFound (message : String) (requestId : Option String)
  | validation (message : String) (field : Option String) (requestId : Option String)
  | rateLimit (message : String) (retryAfter : Option Int) (requestId : Option String)
  | network (message : String) (requestId : Option String)
  | server (message : String) (statusCode : Nat) (requestId : Option String)
  | timeout (message : String) (requestId : Option String)
  | emailAddress (message : String) (requestId : Option String)
  | emailSend (message : String) (requestId : Option String)
  deriving DecidableEq, Repr

/-- The `message` property of the error (inherited from `Error`). -/
def MaylError.message : MaylError → String
  | .authentication m _ => m
  | .authorization m _ => m
  | .notFound m _ => m
  | .validation m _ _ => m
  | .rateLimit m _ _ => m
  | .network m _ => m
  | .server m _ _ => m
  | .timeout m _ => m
  | .emailAddress m _ => m
  | .emailSend m _ => m

/-- The stable string `code` of each error class. -/
def MaylError.code : MaylError → String
  | .authentication _ _ => "AUTHENTICATION_ERROR"
  | .authorization _ _ => "AUTHORIZATION_ERROR"
  | .notFound _ _ => "NOT_FOUND_ERROR"
  | .validation _ _ _ => "VALIDATION_ERROR"
  | .rateLimit _ _ _ => "RATE_LIMIT_ERROR"
  | .network _ _ => "NETWORK_ERROR"
  | .server _ _ _ => "SERVER_ERROR"
  | .timeout _ _ => "TIMEOUT_ERROR"
  | .emailAddress _ _ => "EMAIL_ADDRESS_ERROR"
  | .emailSend _ _ => "EMAIL_SEND_ERROR"

/-- The HTTP-equivalent `statusCode` of each error class. -/
def MaylError.statusCode : MaylError → Nat
  | .authentication _ _ => 401
  | .authorization _ _ => 403
  | .notFound _ _ => 404
  | .validation _ _ _ => 400
  | .rateLimit _ _ _ => 429
  | .network _ _ => 0
  | .server _ s _ => s
  | .timeout _ _ => 408
  | .emailAddress _ _ => 400
  | .emailSend _ _ => 400

/-- The `field` property: only `ValidationError` declares it. -/
def MaylError.field : MaylError → Option String
  | .validation _ f _ => f
  | _ => none

/-- The `retryAfter` property: only `RateLimitError` declares it. -/
def MaylError.retryAfter : MaylError → Option Int
  | .rateLimit _ r _ => r
  | _ => none

/-- `new NotFoundError(resource, id?, requestId?)`: the message is built
from the resource name and the optional id. -/
def mkNotFoundError (resource : String) (id : Option String) (requestId : Option String) : MaylError :=
  MaylError.notFound
    (match id with
     | some i => resource ++ " with ID \x27" ++ i ++ "\x27 not found"
     | none => resource ++ " not found")
    requestId

/-- `new ValidationError(message)` as the services raise it: no field,
no request id. -/
def mkValidationError (message : String) : MaylError :=
  MaylError.validation message none none

/-!  ## Transport adapter (http-client.ts)

`AxiosErrorT` carries the parts of the axios error object that
`HTTPClient.handleAPIError` reads; `requestId` stands for
`error.config?.headers?.["X-Request-ID"]`. -/

structure AxiosResponseT where
  status : Nat
  /-- `(data as any)?.error` of the error response body. -/
  dataError : Option String
  /-- the `retry-after` response header, when present. -/
  retryAfterHeader : Option String
  deriving DecidableEq, Repr

structure AxiosErrorT where
  code : Option String
  message : String
  response : Option AxiosResponseT
  requestId : Option String
  deriving DecidableEq, Repr

/-- `retryAfter ? parseInt(retryAfter) : undefined`: an absent or empty
header yields no retry hint; otherwise the header is parsed as an
integer (`NaN` modelled as absence). -/
def parseRetryAfter : Option String → Option Int
  | none => none
  | some h => if h = "" then none else jsParseInt h

namespace HTTPClient

/-- `HTTPClient.handleAPIError`: classifies an axios error into the
taxonomy.  The `switch` on the status code is rendered as the equivalent
chain of equality tests. -/
def handleAPIError (e : AxiosErrorT) : MaylError :=
  match e.response with
  | none =>
    if e.code = some "ECONNABORTED" ∨ jsIncludes e.message "timeout" then
      MaylError.timeout "Request timeout" e.requestId
    else
      MaylError.network ("Network error: " ++ e.message) e.requestId
  | some r =>
    let message := jsOrOpt r.dataError e.message
    if r.status = 401 then MaylError.authentication message e.requestId
    else if r.status = 403 then MaylError.authorization message e.requestId
    else if r.status = 404 then mkNotFoundError "Resource" none e.requestId
    else if r.status = 400 then MaylError.validation message none e.requestId
    else if r.status = 429 then
      MaylError.rateLimit message (parseRetryAfter r.retryAfterHeader) e.requestId
    else if r.status = 500 ∨ r.status = 502 ∨ r.status = 503 ∨ r.status = 504 then
      MaylError.server message r.status e.requestId
    else
      MaylError.server ("HTTP " ++ Nat.repr r.status ++ ": " ++ message) r.status e.requestId

end HTTPClient

/-!  ## Response envelope and abstracted transport -/

/-- The uniform response envelope `{ data, success, error?, requestId? }`. -/
structure APIResponse (α : Type) where
  data : α
  success : Bool
  error : Option String
  requestId : Option String
  deriving DecidableEq, Repr

/-- Outcome of the one network round trip an operation performs: either a
received envelope or the taxonomy error the interceptor rejected with. -/
inductive TransportResult (α : Type) where
  | success (resp : APIResponse α)
  | failure (e : MaylError)
  deriving DecidableEq, Repr

/-!  ## Email service data (types.ts) -/

structure EmailRecipient where
  email : String
  name : Option String
  deriving DecidableEq, Repr

/-- `string | Buffer` attachment content. -/
inductive AttachmentContent where
  | str (s : String)
  | buffer (bytes : List Nat)
  deriving DecidableEq, Repr

structure EmailAttachment where
  filename : String
  contentType : String
  content : AttachmentContent
  cid : Option String
  deriving DecidableEq, Repr

/-- `SendEmailOptions`; `scheduledAt` is the epoch-millisecond value of
the `Date`, since the only use the validator makes of it is the numeric
comparison against the current instant. -/
structure SendEmailOptions where
  fromEmailId : String
  «to» : List EmailRecipient
  cc : Option (List EmailRecipient)
  bcc : Option (List EmailRecipient)
  subject : String
  text : Option String
  html : Option String
  attachments : Option (List EmailAttachment)
  scheduledAt : Option Int
  threadId : Option String
  deriving DecidableEq, Repr

/-- Wire shape of a sent email as the parser reads it: `sentAt` arrives
as a string and is converted. -/
structure SentEmailWire where
  id : String
  fromEmailId : String
  subject : String
  sentAt : String
  status : String
  deriving DecidableEq, Repr

structure SentEmail where
  id : String
  fromEmailId : String
  subject : String
  sentAt : JsDate
  status : String
  deriving DecidableEq, Repr

/-!  ## Email validation (email-service.ts) -/

/-- One character of the regex class `[^\s@]`. -/
def isEmailChar (c : Char) : Bool :=
  !(isJsSpace c) && c ≠ '@'

/-- After the mandatory dot position: true when some element other than
the last one is a dot. -/
def containsDotNotLast : List Char → Bool
  | [] => false
  | [_] => false
  | c :: rest => (c = '.') || containsDotNotLast rest

/-- The domain side `[^\s@]+\.[^\s@]+`: some decomposition `b ++ "." ++ c`
with `b`, `c` non-empty, which holds exactly when a dot occurs at a
position that is neither first nor last. -/
def dotSplitOk : List Char → Bool
  | [] => false
  | _ :: rest => containsDotNotLast rest

/-- `^[^\s@]+@[^\s@]+\.[^\s@]+$`: exactly one `@`, a non-empty local part
of non-space characters, and a domain part of non-space characters
containing an interior dot. -/
def emailRegexTest (s : String) : Bool :=
  match splitOnChar '@' s.data with
  | [localPart, domainPart] =>
    !localPart.isEmpty && localPart.all isEmailChar &&
      domainPart.all isEmailChar && dotSplitOk domainPart
  | _ => false

/-- JavaScript falsiness of an optional string (`undefined` and `""`). -/
def jsFalsyOptStr : Option String → Bool
  | none => true
  | some s => s = ""

/-- JavaScript falsiness of `string | Buffer` content (only the empty
string is falsy; a Buffer is always truthy). -/
def jsFalsyContent : AttachmentContent → Bool
  | .str s => s = ""
  | .buffer _ => false

namespace EmailService

/-- `EmailService.validateEmailRecipient` (the `typeof` checks on the
statically typed fields are vacuous here). -/
def validateEmailRecipient (r : EmailRecipient) (field : String) : Except MaylError Unit :=
  if r.email = "" then
    .error (mkValidationError (field ++ ".email is required"))
  else if emailRegexTest r.email = false then
    .error (mkValidationError (field ++ ".email is not a valid email address"))
  else
    .ok ()

/-- The `forEach` loop over a recipient list starting at index `i`: a
thrown error aborts the loop and propagates. -/
def validateRecipientsFrom (base : String) (i : Nat) : List EmailRecipient → Except MaylError Unit
  | [] => .ok ()
  | r :: rest =>
    match validateEmailRecipient r (base ++ "[" ++ Nat.repr i ++ "]") with
    | .error e => .error e
    | .ok _ => validateRecipientsFrom base (i + 1) rest

/-- `if (options.cc) { options.cc.forEach(...) }`. -/
def validateOptRecipients (base : String) : Option (List EmailRecipient) → Except MaylError Unit
  | some rs => validateRecipientsFrom base 0 rs
  | none => .ok ()

/-- `EmailService.validateEmailAttachment`. -/
def validateEmailAttachment (a : EmailAttachment) (field : String) : Except MaylError Unit :=
  if a.filename = "" then
    .error (mkValidationError (field ++ ".filename is required"))
  else if a.contentType = "" then
    .error (mkValidationError (field ++ ".contentType is required"))
  else if jsFalsyContent a.content then
    .error (mkValidationError (field ++ ".content is required"))
  else
    .ok ()

/-- The `forEach` loop over the attachment list starting at index `i`. -/
def validateAttachmentsFrom (i : Nat) : List EmailAttachment → Except MaylError Unit
  | [] => .ok ()
  | a :: rest =>
    match validateEmailAttachment a ("attachments[" ++ Nat.repr i ++ "]") with
    | .error e => .error e
    | .ok _ => validateAttachmentsFrom (i + 1) rest

/-- `if (options.attachments) { ...forEach... }`. -/
def validateOptAttachments : Option (List EmailAttachment) → Except MaylError Unit
  | some as_ => validateAttachmentsFrom 0 as_
  | none => .ok ()

/-- `EmailService.validateSendOptions` relative to the current instant
`now` (epoch milliseconds); checks appear in source order, `typeof` and
`instanceof` checks on statically typed fields being vacuous. -/
def validateSendOptions (o : SendEmailOptions) (now : Int) : Except MaylError Unit :=
  if o.fromEmailId = "" then
    .error (mkValidationError "From email ID is required")
  else if o.«to» = [] then
    .error (mkValidationError "At least one recipient is required")
  else
    match validateRecipientsFrom "to" 0 o.«to» with
    | .error e => .error e
    | .ok _ =>
      match validateOptRecipients "cc" o.cc with
      | .error e => .error e
      | .ok _ =>
        match validateOptRecipients "bcc" o.bcc with
        | .error e => .error e
        | .ok _ =>
          if o.subject = "" ∨ jsTrim o.subject = "" then
            .error (mkValidationError "Subject is required")
          else if jsFalsyOptStr o.text && jsFalsyOptStr o.html then
            .error (mkValidationError "Either text or HTML content is required")
          else
            match validateOptAttachments o.attachments with
            | .error e => .error e
            | .ok _ =>
              match o.scheduledAt with
              | some s =>
                if s ≤ now then
                  .error (mkValidationError "Scheduled time must be in the future")
                else .ok ()
              | none => .ok ()

/-- `parseSentEmail`: converts the wire timestamp. -/
def parseSentEmail (d : SentEmailWire) : SentEmail :=
  { id := d.id, fromEmailId := d.fromEmailId, subject := d.subject,
    sentAt := JsDate.mk d.sentAt, status := d.status }

/-- `EmailService.send`: validate, then issue the one round trip and
handle the envelope. -/
def send (o : SendEmailOptions) (now : Int) (t : TransportResult SentEmailWire) :
    Except MaylError SentEmail :=
  match validateSendOptions o now with
  | .error e => .error e
  | .ok _ =>
    match t with
    | .failure e => .error e
    | .success resp =>
      if resp.success then .ok (parseSentEmail resp.data)
      else .error (MaylError.emailSend (jsOrOpt resp.error "Failed to send email") none)

/-- `EmailService.get`. -/
def get (id : String) (t : TransportResult SentEmailWire) : Except MaylError SentEmail :=
  if id = "" then .error (mkValidationError "Email ID is required")
  else
    match t with
    | .failure e => .error e
    | .success resp =>
      if resp.success then .ok (parseSentEmail resp.data)
      else .error (MaylError.emailSend (jsOrOpt resp.error "Failed to get email") none)

end EmailService

/-!  ## Remaining email operations (email-service.ts)

The query-string construction for `list` only shapes the endpoint of the
one round trip, which the transport abstraction already carries, so the
operations below are functions of their validated inputs and the
transport outcome. -/

structure PaginatedWire (α : Type) where
  items : List α
  page : Int
  limit : Int
  total : Int
  totalPages : Int
  hasNext : Bool
  hasPrevious : Bool
  deriving DecidableEq, Repr

/-- Wire shape of the delivery-status payload: optional timestamps arrive
as strings. -/
structure DeliveryStatusWire where
  status : String
  deliveredAt : Option String
  failureReason : Option String
  bounceType : Option String
  opens : Option Int
  clicks : Option Int
  lastOpenedAt : Option String
  lastClickedAt : Option String
  deriving DecidableEq, Repr

structure DeliveryStatus where
  status : String
  deliveredAt : Option JsDate
  failureReason : Option String
  bounceType : Option String
  opens : Option Int
  clicks : Option Int
  lastOpenedAt : Option JsDate
  lastClickedAt : Option JsDate
  deriving DecidableEq, Repr

/-- `x ? new Date(x) : undefined` for an optional wire timestamp
(an empty string is falsy and yields absence). -/
def optWireDate : Option String → Option JsDate
  | none => none
  | some s => if s = "" then none else some (JsDate.mk s)

namespace EmailService

/-- `EmailService.list`: no pre-network validation; the envelope carries a
page whose items are each parsed. -/
def list (t : TransportResult (PaginatedWire SentEmailWire)) :
    Except MaylError (PaginatedWire SentEmail) :=
  match t with
  | .failure e => .error e
  | .success resp =>
    if resp.success then
      .ok { items := resp.data.items.map parseSentEmail, page := resp.data.page,
            limit := resp.data.limit, total := resp.data.total,
            totalPages := resp.data.totalPages, hasNext := resp.data.hasNext,
            hasPrevious := resp.data.hasPrevious }
    else .error (MaylError.emailSend (jsOrOpt resp.error "Failed to list emails") none)

/-- `EmailService.cancel`. -/
def cancel (id : String) (t : TransportResult Unit) : Except MaylError Unit :=
  if id = "" then .error (mkValidationError "Email ID is required")
  else
    match t with
    | .failure e => .error e
    | .success resp =>
      if resp.success then .ok ()
      else .error (MaylError.emailSend (jsOrOpt resp.error "Failed to cancel email") none)

/-- `EmailService.resend`. -/
def resend (id : String) (t : TransportResult SentEmailWire) : Except MaylError SentEmail :=
  if id = "" then .error (mkValidationError "Email ID is required")
  else
    match t with
    | .failure e => .error e
    | .success resp =>
      if resp.success then .ok (parseSentEmail resp.data)
      else .error (MaylError.emailSend (jsOrOpt resp.error "Failed to resend email") none)

/-- `EmailService.getDeliveryStatus`. -/
def getDeliveryStatus (id : String) (t : TransportResult DeliveryStatusWire) :
    Except MaylError DeliveryStatus :=
  if id = "" then .error (mkValidationError "Email ID is required")
  else
    match t with
    | .failure e => .error e
    | .success resp =>
      if resp.success then
        .ok { status := resp.data.status,
              deliveredAt := optWireDate resp.data.deliveredAt,
              failureReason := resp.data.failureReason,
              bounceType := resp.data.bounceType,
              opens := resp.data.opens, clicks := resp.data.clicks,
              lastOpenedAt := optWireDate resp.data.lastOpenedAt,
              lastClickedAt := optWireDate resp.data.lastClickedAt }
      else .error (MaylError.emailSend (jsOrOpt resp.error "Failed to get delivery status") none)

end EmailService

/-!  ## Email address service (email-address-service.ts) -/

inductive AddressType where
  | temporary
  | persistent
  deriving DecidableEq, Repr

/-- A JavaScript number as the create validator can receive it: an
integral value or NaN.  `typeof` answers `number` for all of these, so
the `typeof !== "number"` half of the source check stays vacuous, while
NaN makes every ordered comparison false. -/
inductive JsNumber where
  | num (v : Int)
  | nan
  deriving DecidableEq, Repr

/-- The JavaScript comparison `x <= 0`: false for NaN. -/
def JsNumber.leZero : JsNumber → Bool
  | .num v => v ≤ 0
  | .nan => false

/-- `CreateEmailAddressOptions` (the source field `prefix` is rendered as
`prefix_`); `expirationMinutes` is a number of minutes, possibly NaN. -/
structure CreateEmailAddressOptions where
  type : AddressType
  prefix_ : Option String
  domain : Option String
  expirationMinutes : Option JsNumber
  deriving DecidableEq, Repr

/-- Wire shape of an email address: timestamps arrive as strings,
`expiresAt` possibly null. -/
structure EmailAddressWire where
  id : String
  email : String
  type : String
  status : String
  createdAt : String
  expiresAt : Option String
  deriving DecidableEq, Repr

structure EmailAddress where
  id : String
  email : String
  type : String
  status : String
  createdAt : JsDate
  expiresAt : Option JsDate
  deriving DecidableEq, Repr

namespace EmailAddressService

/-- `EmailAddressService.validateCreateOptions`: the enumerated-kind and
`typeof` checks are vacuous under the typed embedding; the
`expirationMinutes` rules remain, with the source comparison
`expirationMinutes <= 0` false for NaN. -/
def validateCreateOptions (o : CreateEmailAddressOptions) : Except MaylError Unit :=
  match o.expirationMinutes with
  | some m =>
    if m.leZero then
      .error (mkValidationError "Expiration minutes must be a positive number")
    else if o.type = AddressType.persistent then
      .error (mkValidationError "Expiration minutes cannot be set for persistent email addresses")
    else .ok ()
  | none => .ok ()

/-- `parseEmailAddress`: converts `createdAt`, and the falsy-or-null
`expiresAt` to absence. -/
def parseEmailAddress (d : EmailAddressWire) : EmailAddress :=
  { id := d.id, email := d.email, type := d.type, status := d.status,
    createdAt := JsDate.mk d.createdAt, expiresAt := optWireDate d.expiresAt }

/-- `EmailAddressService.create`. -/
def create (o : CreateEmailAddressOptions) (t : TransportResult EmailAddressWire) :
    Except MaylError EmailAddress :=
  match validateCreateOptions o with
  | .error e => .error e
  | .ok _ =>
    match t with
    | .failure e => .error e
    | .success resp =>
      if resp.success then .ok (parseEmailAddress resp.data)
      else .error (MaylError.emailAddress (jsOrOpt resp.error "Failed to create email address") none)

/-- `EmailAddressService.get`. -/
def get (id : String) (t : TransportResult EmailAddressWire) : Except MaylError EmailAddress :=
  if id = "" then .error (mkValidationError "Email address ID is required")
  else
    match t with
    | .failure e => .error e
    | .success resp =>
      if resp.success then .ok (parseEmailAddress resp.data)
      else .error (MaylError.emailAddress (jsOrOpt resp.error "Failed to get email address") none)

/-- `EmailAddressService.list`. -/
def list (t : TransportResult (PaginatedWire EmailAddressWire)) :
    Except MaylError (PaginatedWire EmailAddress) :=
  match t with
  | .failure e => .error e
  | .success resp =>
    if resp.success then
      .ok { items := resp.data.items.map parseEmailAddress, page := resp.data.page,
            limit := resp.data.limit, total := resp.data.total,
            totalPages := resp.data.totalPages, hasNext := resp.data.hasNext,
            hasPrevious := resp.data.hasPrevious }
    else .error (MaylError.emailAddress (jsOrOpt resp.error "Failed to list email addresses") none)

/-- `EmailAddressService.update` (the updates object is statically an
object, so only the id check remains before the round trip). -/
def update (id : String) (t : TransportResult EmailAddressWire) : Except MaylError EmailAddress :=
  if id = "" then .error (mkValidationError "Email address ID is required")
  else
    match t with
    | .failure e => .error e
    | .success resp =>
      if resp.success then .ok (parseEmailAddress resp.data)
      else .error (MaylError.emailAddress (jsOrOpt resp.error "Failed to update email address") none)

/-- `EmailAddressService.delete`. -/
def delete (id : String) (t : TransportResult Unit) : Except MaylError Unit :=
  if id = "" then .error (mkValidationError "Email address ID is required")
  else
    match t with
    | .failure e => .error e
    | .success resp =>
      if resp.success then .ok ()
      else .error (MaylError.emailAddress (jsOrOpt resp.error "Failed to delete email address") none)

/-- `EmailAddressService.extend`: `!additionalMinutes || additionalMinutes <= 0`
collapses to `additionalMinutes ≤ 0` over the integers. -/
def extend (id : String) (additionalMinutes : Int) (t : TransportResult EmailAddressWire) :
    Except MaylError EmailAddress :=
  if id = "" then .error (mkValidationError "Email address ID is required")
  else if additionalMinutes ≤ 0 then
    .error (mkValidationError "Additional minutes must be a positive number")
  else
    match t with
    | .failure e => .error e
    | .success resp =>
      if resp.success then .ok (parseEmailAddress resp.data)
      else .error (MaylError.emailAddress (jsOrOpt resp.error "Failed to extend email address") none)

end EmailAddressService

/-!  ## Facade client (inbox-sdk.ts) -/

/-- Payload the `/health` endpoint is typed to return. -/
structure HealthData where
  status : String
  message : String
  apiVersion : String
  accountId : String
  deriving DecidableEq, Repr

inductive HealthStatus where
  | healthy
  | unhealthy
  deriving DecidableEq, Repr

structure HealthCheckResult where
  status : HealthStatus
  message : String
  timestamp : JsDate
  apiVersion : Option String
  accountId : Option String
  deriving DecidableEq, Repr

/-- Wire shape of the `/account` payload. -/
structure AccountInfoWire where
  accountId : String
  plan : String
  emailAddressLimit : Int
  emailAddressUsed : Int
  emailsSentThisMonth : Int
  emailLimitPerMonth : Int
  createdAt : String
  lastActivity : String
  deriving DecidableEq, Repr

structure AccountInfo where
  accountId : String
  plan : String
  emailAddressLimit : Int
  emailAddressUsed : Int
  emailsSentThisMonth : Int
  emailLimitPerMonth : Int
  createdAt : JsDate
  lastActivity : JsDate
  deriving DecidableEq, Repr

namespace InboxSDK

/-- `InboxSDK.healthCheck`: the `try` block builds a healthy result from
the envelope data without reading the success flag; the `catch` block
downgrades any thrown error to an unhealthy result.  `now` is the
`new Date()` taken for the timestamp. -/
def healthCheck (now : JsDate) (t : TransportResult HealthData) : HealthCheckResult :=
  match t with
  | .success resp =>
    { status := HealthStatus.healthy,
      message := jsOrStr resp.data.message "API is healthy",
      timestamp := now,
      apiVersion := some resp.data.apiVersion,
      accountId := some resp.data.accountId }
  | .failure e =>
    { status := HealthStatus.unhealthy,
      message := jsOrStr e.message "Health check failed",
      timestamp := now,
      apiVersion := none,
      accountId := none }

/-- `InboxSDK.getAccountInfo`: parses the envelope data directly,
without inspecting the success flag. -/
def getAccountInfo (t : TransportResult AccountInfoWire) : Except MaylError AccountInfo :=
  match t with
  | .failure e => .error e
  | .success resp =>
    .ok { accountId := resp.data.accountId, plan := resp.data.plan,
          emailAddressLimit := resp.data.emailAddressLimit,
          emailAddressUsed := resp.data.emailAddressUsed,
          emailsSentThisMonth := resp.data.emailsSentThisMonth,
          emailLimitPerMonth := resp.data.emailLimitPerMonth,
          createdAt := JsDate.mk resp.data.createdAt,
          lastActivity := JsDate.mk resp.data.lastActivity }

end InboxSDK

/-!  ## Shared lemmas about the validators -/

theorem validateEmailRecipient_error_shape {r : EmailRecipient} {f : String} {e : MaylError}
    (h : EmailService.validateEmailRecipient r f = .error e) : ∃ m, e = mkValidationError m := by
  unfold EmailService.validateEmailRecipient at h
  split at h
  · exact ⟨_, (Except.error.inj h).symm⟩
  · split at h
    · exact ⟨_, (Except.error.inj h).symm⟩
    · cases h

theorem validateRecipientsFrom_error_shape {base : String} {i : Nat}
    {rs : List EmailRecipient} {e : MaylError}
    (h : EmailService.validateRecipientsFrom base i rs = .error e) : ∃ m, e = mkValidationError m := by
  induction rs generalizing i with
  | nil => cases h
  | cons r rest ih =>
    unfold EmailService.validateRecipientsFrom at h
    split at h
    · next heq => exact validateEmailRecipient_error_shape (heq.trans (congrArg Except.error (Except.error.inj h)))
    · exact ih h

theorem validateOptRecipients_error_shape {base : String}
    {l : Option (List EmailRecipient)} {e : MaylError}
    (h : EmailService.validateOptRecipients base l = .error e) : ∃ m, e = mkValidationError m := by
  cases l with
  | none => cases h
  | some rs => exact validateRecipientsFrom_error_shape h

theorem validateEmailAttachment_error_shape {a : EmailAttachment} {f : String} {e : MaylError}
    (h : EmailService.validateEmailAttachment a f = .error e) : ∃ m, e = mkValidationError m := by
  unfold EmailService.validateEmailAttachment at h
  split at h
  · exact ⟨_, (Except.error.inj h).symm⟩
  · split at h
    · exact ⟨_, (Except.error.inj h).symm⟩
    · split at h
      · exact ⟨_, (Except.error.inj h).symm⟩
      · cases h

theorem validateAttachmentsFrom_error_shape {i : Nat}
    {as_ : List EmailAttachment} {e : MaylError}
    (h : EmailService.validateAttachmentsFrom i as_ = .error e) : ∃ m, e = mkValidationError m := by
  induction as_ generalizing i with
  | nil => cases h
  | cons a rest ih =>
    unfold EmailService.validateAttachmentsFrom at h
    split at h
    · next heq => exact validateEmailAttachment_error_shape (heq.trans (congrArg Except.error (Except.error.inj h)))
    · exact ih h

theorem validateOptAttachments_error_shape {l : Option (List EmailAttachment)} {e : MaylError}
    (h : EmailService.validateOptAttachments l = .error e) : ∃ m, e = mkValidationError m := by
  cases l with
  | none => cases h
  | some as_ => exact validateAttachmentsFrom_error_shape h

/-- Every error `validateSendOptions` produces is a `ValidationError`
built from a message alone. -/
theorem validateSendOptions_error_shape {o : SendEmailOptions} {now : Int} {e : MaylError}
    (h : EmailService.validateSendOptions o now = .error e) : ∃ m, e = mkValidationError m := by
  unfold EmailService.validateSendOptions at h
  split at h
  · exact ⟨_, (Except.error.inj h).symm⟩
  split at h
  · exact ⟨_, (Except.error.inj h).symm⟩
  split at h
  · next heq => exact validateRecipientsFrom_error_shape (heq.trans (congrArg Except.error (Except.error.inj h)))
  split at h
  · next heq => exact validateOptRecipients_error_shape (heq.trans (congrArg Except.error (Except.error.inj h)))
  split at h
  · next heq => exact validateOptRecipients_error_shape (heq.trans (congrArg Except.error (Except.error.inj h)))
  split at h
  · exact ⟨_, (Except.error.inj h).symm⟩
  split at h
  · exact ⟨_, (Except.error.inj h).symm⟩
  split at h
  · next heq => exact validateOptAttachments_error_shape (heq.trans (congrArg Except.error (Except.error.inj h)))
  split at h
  · split at h
    · exact ⟨_, (Except.error.inj h).symm⟩
    · cases h
  · cases h

theorem validateEmailRecipient_ok {r : EmailRecipient} {f : String} {u : Unit}
    (h : EmailService.validateEmailRecipient r f = .ok u) :
    r.email ≠ "" ∧ emailRegexTest r.email = true := by
  unfold EmailService.validateEmailRecipient at h
  split at h
  · cases h
  · next hne =>
    split at h
    · cases h
    · next hre => exact ⟨hne, by simpa using hre⟩

theorem validateRecipientsFrom_ok {base : String} {i : Nat}
    {rs : List EmailRecipient} {u : Unit}
    (h : EmailService.validateRecipientsFrom base i rs = .ok u) :
    ∀ r ∈ rs, r.email ≠ "" ∧ emailRegexTest r.email = true := by
  induction rs generalizing i with
  | nil => intro r hr; cases hr
  | cons r rest ih =>
    intro r₂ hr₂
    unfold EmailService.validateRecipientsFrom at h
    split at h
    · cases h
    · next u₁ heq =>
      cases hr₂ with
      | head => exact validateEmailRecipient_ok heq
      | tail _ hmem => exact ih h r₂ hmem

/-- The loop reports the first invalid recipient: with every earlier
recipient valid and the recipient at position `pre.length` carrying a
non-empty email that fails the pattern, the loop stops with the
pattern-failure message for that index. -/
theorem validateRecipientsFrom_firstBad (base : String) (i : Nat)
    (pre : List EmailRecipient) (r : EmailRecipient) (rest : List EmailRecipient)
    (hpre : ∀ p ∈ pre, p.email ≠ "" ∧ emailRegexTest p.email = true)
    (hr1 : r.email ≠ "") (hr2 : emailRegexTest r.email = false) :
    EmailService.validateRecipientsFrom base i (pre ++ r :: rest) =
      .error (mkValidationError
        (base ++ "[" ++ Nat.repr (i + pre.length) ++ "]" ++ ".email is not a valid email address")) := by
  induction pre generalizing i with
  | nil =>
    unfold EmailService.validateRecipientsFrom EmailService.validateEmailRecipient
    simp [hr1, hr2]
  | cons p pre ih =>
    have hp := hpre p (List.mem_cons_self p pre)
    have hrec : EmailService.validateEmailRecipient p (base ++ "[" ++ Nat.repr i ++ "]") = .ok () := by
      unfold EmailService.validateEmailRecipient
      simp [hp.1, hp.2]
    rw [List.cons_append]
    have hstep : EmailService.validateRecipientsFrom base i (p :: (pre ++ r :: rest)) =
        EmailService.validateRecipientsFrom base (i + 1) (pre ++ r :: rest) := by
      conv_lhs => unfold EmailService.validateRecipientsFrom
      rw [hrec]
    rw [hstep, ih (i + 1) (fun q hq => hpre q (List.mem_cons_of_mem _ hq))]
    have harith : (i + 1) + pre.length = i + (p :: pre).length := by
      simp [List.length_cons]
      omega
    rw [harith]

/-- What a passed send-validation guarantees, componentwise. -/
theorem validateSendOptions_ok_parts {o : SendEmailOptions} {now : Int} {u : Unit}
    (h : EmailService.validateSendOptions o now = .ok u) :
    (∃ v, EmailService.validateRecipientsFrom "to" 0 o.«to» = .ok v) ∧
    (∃ v, EmailService.validateOptRecipients "cc" o.cc = .ok v) ∧
    (∃ v, EmailService.validateOptRecipients "bcc" o.bcc = .ok v) ∧
    (jsFalsyOptStr o.text && jsFalsyOptStr o.html) = false ∧
    (∀ s, o.scheduledAt = some s → now < s) := by
  unfold EmailService.validateSendOptions at h
  split at h
  · cases h
  split at h
  · cases h
  split at h
  · cases h
  next v₁ heq₁ =>
  split at h
  · cases h
  next v₂ heq₂ =>
  split at h
  · cases h
  next v₃ heq₃ =>
  split at h
  · cases h
  split at h
  · cases h
  next hcontent =>
  split at h
  · cases h
  next v₄ heq₄ =>
  refine ⟨⟨v₁, heq₁⟩, ⟨v₂, heq₂⟩, ⟨v₃, heq₃⟩, by simpa using hcontent, ?_⟩
  intro s hs
  rw [hs] at h
  by_cases hsl : s ≤ now
  · simp [hsl] at h
  · omega

/-!  ## Claim theorems -/

/-- C1: for every HTTP response received with an error status, the
transport adapter raises the taxonomy member determined by the status code
alone: 401 Authentication, 403 Authorization, 404 NotFound,
400 Validation, 429 RateLimit with retryAfter parsed from the retry-after
header (absent when the header is absent, 42 for a header of 42),
500/502/503/504 Server carrying that status, and any other status a
generic Server error. -/
theorem C1_statusCodeMapping (code : Option String) (msg0 : String)
    (status : Nat) (dataError retryAfterHeader : Option String) (rid : Option String) :
    (status = 401 →
      HTTPClient.handleAPIError ⟨code, msg0, some ⟨status, dataError, retryAfterHeader⟩, rid⟩
        = MaylError.authentication (jsOrOpt dataError msg0) rid) ∧
    (status = 403 →
      HTTPClient.handleAPIError ⟨code, msg0, some ⟨status, dataError, retryAfterHeader⟩, rid⟩
        = MaylError.authorization (jsOrOpt dataError msg0) rid) ∧
    (status = 404 →
      HTTPClient.handleAPIError ⟨code, msg0, some ⟨status, dataError, retryAfterHeader⟩, rid⟩
        = MaylError.notFound "Resource not found" rid) ∧
    (status = 400 →
      HTTPClient.handleAPIError ⟨code, msg0, some ⟨status, dataError, retryAfterHeader⟩, rid⟩
        = MaylError.validation (jsOrOpt dataError msg0) none rid) ∧
    (status = 429 →
      HTTPClient.handleAPIError ⟨code, msg0, some ⟨status, dataError, retryAfterHeader⟩, rid⟩
        = MaylError.rateLimit (jsOrOpt dataError msg0) (parseRetryAfter retryAfterHeader) rid) ∧
    parseRetryAfter none = none ∧
    parseRetryAfter (some "42") = some 42 ∧
    (status = 500 ∨ status = 502 ∨ status = 503 ∨ status = 504 →
      HTTPClient.handleAPIError ⟨code, msg0, some ⟨status, dataError, retryAfterHeader⟩, rid⟩
        = MaylError.server (jsOrOpt dataError msg0) status rid) ∧
    (status ∉ ([401, 403, 404, 400, 429, 500, 502, 503, 504] : List Nat) →
      HTTPClient.handleAPIError ⟨code, msg0, some ⟨status, dataError, retryAfterHeader⟩, rid⟩
        = MaylError.server ("HTTP " ++ Nat.repr status ++ ": " ++ jsOrOpt dataError msg0) status rid) := by
  refine ⟨?_, ?_, ?_, ?_, ?_, rfl, by decide, ?_, ?_⟩
  · intro h; subst h; rfl
  · intro h; subst h; rfl
  · intro h; subst h; rfl
  · intro h; subst h; rfl
  · intro h; subst h; rfl
  · rintro (h | h | h | h) <;> subst h <;> rfl
  · intro h
    simp only [List.mem_cons, List.not_mem_nil, or_false, not_or] at h
    obtain ⟨h401, h403, h404, h400, h429, h500, h502, h503, h504⟩ := h
    unfold HTTPClient.handleAPIError
    simp [h401, h403, h404, h400, h429, h500, h502, h503, h504]

/-- Witness for C1 at concrete inputs: a 401 response and a 429 response
with a retry-after header of 42. -/
theorem C1_statusCodeMapping_witness :
    HTTPClient.handleAPIError ⟨none, "m", some ⟨401, some "bad key", none⟩, some "r1"⟩
      = MaylError.authentication "bad key" (some "r1") ∧
    HTTPClient.handleAPIError ⟨none, "m", some ⟨429, some "slow down", some "42"⟩, some "r2"⟩
      = MaylError.rateLimit "slow down" (some 42) (some "r2") := by
  constructor
  · exact ((C1_statusCodeMapping none "m" 401 (some "bad key") none (some "r1")).1 rfl).trans (by decide)
  · exact ((C1_statusCodeMapping none "m" 429 (some "slow down") (some "42") (some "r2")).2.2.2.2.1
      rfl).trans (by decide)

/-- C2: for every request that fails with no response received, the
transport adapter raises Timeout when the failure carries a timeout
indicator (the aborted-connection code or a timeout message), and Network
for any other cause; a timed-out request never surfaces as Network. -/
theorem C2_noResponseClassification (code : Option String) (m : String) (rid : Option String) :
    ((code = some "ECONNABORTED" ∨ jsIncludes m "timeout" = true) →
      HTTPClient.handleAPIError ⟨code, m, none, rid⟩ = MaylError.timeout "Request timeout" rid) ∧
    (¬(code = some "ECONNABORTED" ∨ jsIncludes m "timeout" = true) →
      HTTPClient.handleAPIError ⟨code, m, none, rid⟩
        = MaylError.network ("Network error: " ++ m) rid) := by
  constructor
  · intro h
    unfold HTTPClient.handleAPIError
    simp only []
    rw [if_pos (by simpa using h)]
  · intro h
    unfold HTTPClient.handleAPIError
    simp only []
    rw [if_neg (by simpa using h)]

/-- Witness for C2 at concrete inputs: an aborted-connection failure maps
to Timeout, a plain connection failure maps to Network. -/
theorem C2_noResponseClassification_witness :
    HTTPClient.handleAPIError ⟨some "ECONNABORTED", "timeout of 30000ms exceeded", none, none⟩
      = MaylError.timeout "Request timeout" none ∧
    HTTPClient.handleAPIError ⟨none, "socket hang up", none, none⟩
      = MaylError.network ("Network error: " ++ "socket hang up") none := by
  constructor
  · exact (C2_noResponseClassification (some "ECONNABORTED") "timeout of 30000ms exceeded" none).1
      (Or.inl rfl)
  · exact (C2_noResponseClassification none "socket hang up" none).2 (by decide)

/-- C5 counterexample: a create call with kind temporary and
expirationMinutes NaN — present and not a positive number — passes
validation (`typeof NaN` is `number` and `NaN <= 0` is false) and issues
the network call: the result follows the transport outcome instead of
being a pre-network Validation error. -/
theorem C5_counterexample :
    EmailAddressService.create
      { type := AddressType.temporary, prefix_ := none, domain := none,
        expirationMinutes := some JsNumber.nan }
      (TransportResult.failure (MaylError.network "down" none)) =
      .error (MaylError.network "down" none) ∧
    EmailAddressService.create
      { type := AddressType.temporary, prefix_ := none, domain := none,
        expirationMinutes := some JsNumber.nan }
      (TransportResult.success
        { data := ⟨"e1", "a@b.c", "temporary", "active", "2025-01-01", none⟩,
          success := true, error := none, requestId := none }) =
      Except.ok (EmailAddressService.parseEmailAddress
        ⟨"e1", "a@b.c", "temporary", "active", "2025-01-01", none⟩) := by
  exact ⟨rfl, rfl⟩

/-- C5 (amended): a create call with kind persistent and a present
expirationMinutes fails validation before any network call, whatever the
value (NaN included; for a value at most zero the positivity message
fires first, still a pre-network Validation error); a present
expirationMinutes that is a number at most zero fails the same way for
any kind; but a present NaN with kind temporary passes validation and
the network call is issued. -/
theorem C5_persistentExpirationRejected (o : CreateEmailAddressOptions)
    (m : JsNumber) (v : Int) :
    (o.type = AddressType.persistent → o.expirationMinutes = some m →
      ∀ t, EmailAddressService.create o t =
        .error (mkValidationError
          (if m.leZero then "Expiration minutes must be a positive number"
           else "Expiration minutes cannot be set for persistent email addresses"))) ∧
    (o.expirationMinutes = some (JsNumber.num v) → v ≤ 0 →
      ∀ t, EmailAddressService.create o t =
        .error (mkValidationError "Expiration minutes must be a positive number")) ∧
    (o.type = AddressType.temporary → o.expirationMinutes = some JsNumber.nan →
      (∀ e, EmailAddressService.create o (.failure e) = .error e) ∧
      (∀ resp, EmailAddressService.create o (.success resp) =
        if resp.success then .ok (EmailAddressService.parseEmailAddress resp.data)
        else .error (MaylError.emailAddress
          (jsOrOpt resp.error "Failed to create email address") none))) := by
  refine ⟨?_, ?_, ?_⟩
  · intro htype hexp t
    unfold EmailAddressService.create EmailAddressService.validateCreateOptions
    rw [hexp]
    by_cases hv : m.leZero
    · simp [hv]
    · simp [hv, htype]
  · intro hexp hv t
    unfold EmailAddressService.create EmailAddressService.validateCreateOptions
    rw [hexp]
    simp [JsNumber.leZero, hv]
  · intro htype hexp
    have hval : EmailAddressService.validateCreateOptions o = .ok () := by
      unfold EmailAddressService.validateCreateOptions
      rw [hexp, htype]
      simp [JsNumber.leZero]
    constructor
    · intro e
      unfold EmailAddressService.create
      rw [hval]
    · intro resp
      unfold EmailAddressService.create
      rw [hval]

/-- Witness for C5 (amended): persistent kind with expirationMinutes 30
is rejected before the network for both a failing and a succeeding
transport, and a present zero is rejected with the positivity message. -/
theorem C5_persistentExpirationRejected_witness :
    EmailAddressService.create
      { type := AddressType.persistent, prefix_ := none, domain := none,
        expirationMinutes := some (JsNumber.num 30) }
      (TransportResult.failure (MaylError.network "down" none)) =
      .error (mkValidationError "Expiration minutes cannot be set for persistent email addresses") ∧
    EmailAddressService.create
      { type := AddressType.persistent, prefix_ := none, domain := none,
        expirationMinutes := some (JsNumber.num 30) }
      (TransportResult.success
        { data := ⟨"e1", "a@b.c", "persistent", "active", "2025-01-01", none⟩,
          success := true, error := none, requestId := none }) =
      .error (mkValidationError "Expiration minutes cannot be set for persistent email addresses") ∧
    EmailAddressService.create
      { type := AddressType.temporary, prefix_ := none, domain := none,
        expirationMinutes := some (JsNumber.num 0) }
      (TransportResult.failure (MaylError.network "down" none)) =
      .error (mkValidationError "Expiration minutes must be a positive number") := by
  refine ⟨?_, ?_, ?_⟩
  · exact ((C5_persistentExpirationRejected _ (JsNumber.num 30) 0).1 rfl rfl _).trans
      (by simp [JsNumber.leZero])
  · exact ((C5_persistentExpirationRejected _ (JsNumber.num 30) 0).1 rfl rfl _).trans
      (by simp [JsNumber.leZero])
  · exact (C5_persistentExpirationRejected _ JsNumber.nan 0).2.1 rfl (le_refl 0) _

/-- C6: an extend call with additionalMinutes at most zero fails with a
Validation error identically for every transport outcome (so before any
network call); with a non-empty id and strictly positive minutes the
round trip is issued and its outcome decides the result. -/
theorem C6_extendPositiveMinutes (id : String) (mins : Int) :
    (mins ≤ 0 → ∀ t, EmailAddressService.extend id mins t =
      .error (mkValidationError
        (if id = "" then "Email address ID is required"
         else "Additional minutes must be a positive number"))) ∧
    (id ≠ "" → 0 < mins →
      (∀ e, EmailAddressService.extend id mins (.failure e) = .error e) ∧
      (∀ resp, EmailAddressService.extend id mins (.success resp) =
        if resp.success then .ok (EmailAddressService.parseEmailAddress resp.data)
        else .error (MaylError.emailAddress
          (jsOrOpt resp.error "Failed to extend email address") none))) := by
  constructor
  · intro hm t
    unfold EmailAddressService.extend
    by_cases hid : id = ""
    · simp [hid]
    · simp [hid, hm]
  · intro hid hm
    constructor
    · intro e
      unfold EmailAddressService.extend
      simp [hid, not_le.mpr hm]
    · intro resp
      unfold EmailAddressService.extend
      simp [hid, not_le.mpr hm]

/-- Witness for C6: additionalMinutes zero is rejected pre-network, and
with positive minutes the transport failure propagates. -/
theorem C6_extendPositiveMinutes_witness :
    EmailAddressService.extend "addr-1" 0
      (TransportResult.failure (MaylError.network "down" none)) =
      .error (mkValidationError "Additional minutes must be a positive number") ∧
    EmailAddressService.extend "addr-1" 15
      (TransportResult.failure (MaylError.network "down" none)) =
      .error (MaylError.network "down" none) := by
  constructor
  · exact ((C6_extendPositiveMinutes "addr-1" 0).1 (by norm_num) _).trans
      (by rw [if_neg (by decide : ¬("addr-1" = ""))])
  · exact ((C6_extendPositiveMinutes "addr-1" 15).2 (by decide) (by norm_num)).1 _

/-- C7: a send call whose scheduledAt is present and not strictly after
the current instant produces the same Validation error for every
transport outcome, hence before any request is sent. -/
theorem C7_scheduledAtMustBeFuture (o : SendEmailOptions) (now s : Int)
    (h1 : o.scheduledAt = some s) (h2 : s ≤ now) :
    ∃ m, ∀ t, EmailService.send o now t = .error (mkValidationError m) := by
  cases hv : EmailService.validateSendOptions o now with
  | error e =>
    obtain ⟨m, hm⟩ := validateSendOptions_error_shape hv
    refine ⟨m, fun t => ?_⟩
    unfold EmailService.send
    rw [hv, hm]
  | ok u =>
    have := (validateSendOptions_ok_parts hv).2.2.2.2 s h1
    omega

/-- Witness for C7: a send scheduled at instant 5 validated at instant 10
is rejected (and the rejection does not depend on the transport). -/
theorem C7_scheduledAtMustBeFuture_witness :
    ∃ m, ∀ t, EmailService.send
      { fromEmailId := "f1", «to» := [{ email := "a@b.c", name := none }],
        cc := none, bcc := none, subject := "s", text := some "t", html := none,
        attachments := none, scheduledAt := some 5, threadId := none } 10 t =
      .error (mkValidationError m) :=
  C7_scheduledAtMustBeFuture _ 10 5 rfl (by norm_num)

/-- C8 counterexample: a send call providing neither text nor html but
also an empty subject is rejected with the subject message, not a
message indicating that content is required, refuting the claimed
message for every such call. -/
theorem C8_counterexample :
    EmailService.send
      { fromEmailId := "f1", «to» := [{ email := "a@b.c", name := none }],
        cc := none, bcc := none, subject := "", text := none, html := none,
        attachments := none, scheduledAt := none, threadId := none } 0
      (TransportResult.failure (MaylError.network "down" none)) =
      .error (mkValidationError "Subject is required") := by
  rfl

/-- C8 (amended): a send call providing neither text nor html is always
rejected with some Validation error identically for every transport
outcome (before the network call); when the earlier validation rules
(fromEmailId, recipient lists, subject) all pass, that error carries the
content-required message; when an earlier rule fails, its own message is
raised instead. -/
theorem C8_contentRequired (o : SendEmailOptions) (now : Int) :
    (o.text = none → o.html = none →
      ∃ m, ∀ t, EmailService.send o now t = .error (mkValidationError m)) ∧
    (o.fromEmailId ≠ "" → o.«to» ≠ [] →
      EmailService.validateRecipientsFrom "to" 0 o.«to» = .ok () →
      EmailService.validateOptRecipients "cc" o.cc = .ok () →
      EmailService.validateOptRecipients "bcc" o.bcc = .ok () →
      ¬(o.subject = "" ∨ jsTrim o.subject = "") →
      o.text = none → o.html = none →
      ∀ t, EmailService.send o now t =
        .error (mkValidationError "Either text or HTML content is required")) := by
  constructor
  · intro htext hhtml
    cases hv : EmailService.validateSendOptions o now with
    | error e =>
      obtain ⟨m, hm⟩ := validateSendOptions_error_shape hv
      refine ⟨m, fun t => ?_⟩
      unfold EmailService.send
      rw [hv, hm]
    | ok u =>
      exfalso
      have hcontent := (validateSendOptions_ok_parts hv).2.2.2.1
      rw [htext, hhtml] at hcontent
      simp [jsFalsyOptStr] at hcontent
  · intro hfrom hto htoV hcc hbcc hsub htext hhtml
    have hval : EmailService.validateSendOptions o now =
        .error (mkValidationError "Either text or HTML content is required") := by
      unfold EmailService.validateSendOptions
      rw [if_neg hfrom, if_neg hto, htoV, hcc, hbcc, if_neg hsub]
      simp [htext, hhtml, jsFalsyOptStr]
    intro t
    unfold EmailService.send
    rw [hval]

/-- Witness for C8 (amended) at a concrete send call with no text and no
html whose earlier rules pass: the content-required rejection. -/
theorem C8_contentRequired_witness :
    EmailService.send
      { fromEmailId := "f1", «to» := [{ email := "a@b.c", name := none }],
        cc := none, bcc := none, subject := "hello", text := none, html := none,
        attachments := none, scheduledAt := none, threadId := none } 0
      (TransportResult.failure (MaylError.network "down" none)) =
      .error (mkValidationError "Either text or HTML content is required") :=
  (C8_contentRequired _ 0).2 (by decide) (by decide) (by rfl) (by rfl) (by rfl)
    (by decide) rfl rfl (TransportResult.failure (MaylError.network "down" none))

theorem validateOptRecipients_ok_mem {base : String} {oc : Option (List EmailRecipient)}
    {rs : List EmailRecipient} {u : Unit} (hl : oc = some rs)
    (h : EmailService.validateOptRecipients base oc = .ok u) :
    ∀ r ∈ rs, r.email ≠ "" ∧ emailRegexTest r.email = true := by
  subst hl
  unfold EmailService.validateOptRecipients at h
  exact validateRecipientsFrom_ok h

/-- C4 counterexample: at a concrete send call whose third `to` recipient
fails the email pattern, the raised Validation error cites the recipient
path `to[2].email` in its message only; its structured field property is
none, not the path. -/
theorem C4_counterexample :
    EmailService.send
      { fromEmailId := "sender-1",
        «to» := [{ email := "a@b.c", name := none }, { email := "d@e.f", name := none },
                 { email := "not-an-email", name := none }],
        cc := none, bcc := none, subject := "Hi", text := some "body", html := none,
        attachments := none, scheduledAt := none, threadId := none } 0
      (TransportResult.failure (MaylError.network "down" none))
      = Except.error (MaylError.validation "to[2].email is not a valid email address" none none)
    ∧ MaylError.field
        (MaylError.validation "to[2].email is not a valid email address" none none) = none := by
  exact ⟨by rfl, rfl⟩

/-- C4 (amended): a send call with a pattern-failing recipient in to, cc,
or bcc is rejected with a Validation error identically for every
transport outcome (before any network request); when that recipient is
the first failing validation rule the error message cites the recipient
field path; the structured field property of the error is never
populated. -/
theorem C4_invalidRecipientRejected (o : SendEmailOptions) (now : Int) :
    (∀ r : EmailRecipient,
      (r ∈ o.«to» ∨ (∃ l, o.cc = some l ∧ r ∈ l) ∨ (∃ l, o.bcc = some l ∧ r ∈ l)) →
      emailRegexTest r.email = false →
      ∃ m, ∀ t, EmailService.send o now t = .error (mkValidationError m)) ∧
    (∀ (pre : List EmailRecipient) (r : EmailRecipient) (rest : List EmailRecipient),
      o.fromEmailId ≠ "" → o.«to» = pre ++ r :: rest →
      (∀ p ∈ pre, p.email ≠ "" ∧ emailRegexTest p.email = true) →
      r.email ≠ "" → emailRegexTest r.email = false →
      ∀ t, EmailService.send o now t = .error (mkValidationError
        ("to" ++ "[" ++ Nat.repr pre.length ++ "]" ++ ".email is not a valid email address"))) ∧
    (∀ (pre : List EmailRecipient) (r : EmailRecipient) (rest : List EmailRecipient),
      o.fromEmailId ≠ "" → o.«to» ≠ [] →
      EmailService.validateRecipientsFrom "to" 0 o.«to» = .ok () →
      o.cc = some (pre ++ r :: rest) →
      (∀ p ∈ pre, p.email ≠ "" ∧ emailRegexTest p.email = true) →
      r.email ≠ "" → emailRegexTest r.email = false →
      ∀ t, EmailService.send o now t = .error (mkValidationError
        ("cc" ++ "[" ++ Nat.repr pre.length ++ "]" ++ ".email is not a valid email address"))) ∧
    (∀ (pre : List EmailRecipient) (r : EmailRecipient) (rest : List EmailRecipient),
      o.fromEmailId ≠ "" → o.«to» ≠ [] →
      EmailService.validateRecipientsFrom "to" 0 o.«to» = .ok () →
      EmailService.validateOptRecipients "cc" o.cc = .ok () →
      o.bcc = some (pre ++ r :: rest) →
      (∀ p ∈ pre, p.email ≠ "" ∧ emailRegexTest p.email = true) →
      r.email ≠ "" → emailRegexTest r.email = false →
      ∀ t, EmailService.send o now t = .error (mkValidationError
        ("bcc" ++ "[" ++ Nat.repr pre.length ++ "]" ++ ".email is not a valid email address"))) ∧
    (∀ m, MaylError.field (mkValidationError m) = none) := by
  refine ⟨?_, ?_, ?_, ?_, fun m => rfl⟩
  · intro r hr hbad
    cases hv : EmailService.validateSendOptions o now with
    | error e =>
      obtain ⟨m, hm⟩ := validateSendOptions_error_shape hv
      refine ⟨m, fun t => ?_⟩
      unfold EmailService.send
      rw [hv, hm]
    | ok u =>
      exfalso
      obtain ⟨⟨v₁, h₁⟩, ⟨v₂, h₂⟩, ⟨v₃, h₃⟩, -, -⟩ := validateSendOptions_ok_parts hv
      rcases hr with hmem | ⟨l, hl, hmem⟩ | ⟨l, hl, hmem⟩
      · have := (validateRecipientsFrom_ok h₁ r hmem).2
        rw [this] at hbad
        cases hbad
      · have := (validateOptRecipients_ok_mem hl h₂ r hmem).2
        rw [this] at hbad
        cases hbad
      · have := (validateOptRecipients_ok_mem hl h₃ r hmem).2
        rw [this] at hbad
        cases hbad
  · intro pre r rest hfrom heq hpre hr1 hr2 t
    have hne : o.«to» ≠ [] := by
      rw [heq]
      simp
    have hvr := validateRecipientsFrom_firstBad "to" 0 pre r rest hpre hr1 hr2
    rw [Nat.zero_add] at hvr
    have hval : EmailService.validateSendOptions o now = .error (mkValidationError
        ("to" ++ "[" ++ Nat.repr pre.length ++ "]" ++ ".email is not a valid email address")) := by
      unfold EmailService.validateSendOptions
      rw [if_neg hfrom, if_neg hne, heq, hvr]
    unfold EmailService.send
    rw [hval]
  · intro pre r rest hfrom hto htoV hcceq hpre hr1 hr2 t
    have hopt : EmailService.validateOptRecipients "cc" o.cc = .error (mkValidationError
        ("cc" ++ "[" ++ Nat.repr pre.length ++ "]" ++ ".email is not a valid email address")) := by
      rw [hcceq]
      unfold EmailService.validateOptRecipients
      have hvr := validateRecipientsFrom_firstBad "cc" 0 pre r rest hpre hr1 hr2
      rw [Nat.zero_add] at hvr
      exact hvr
    have hval : EmailService.validateSendOptions o now = .error (mkValidationError
        ("cc" ++ "[" ++ Nat.repr pre.length ++ "]" ++ ".email is not a valid email address")) := by
      unfold EmailService.validateSendOptions
      rw [if_neg hfrom, if_neg hto, htoV, hopt]
    unfold EmailService.send
    rw [hval]
  · intro pre r rest hfrom hto htoV hccok hbcceq hpre hr1 hr2 t
    have hopt : EmailService.validateOptRecipients "bcc" o.bcc = .error (mkValidationError
        ("bcc" ++ "[" ++ Nat.repr pre.length ++ "]" ++ ".email is not a valid email address")) := by
      rw [hbcceq]
      unfold EmailService.validateOptRecipients
      have hvr := validateRecipientsFrom_firstBad "bcc" 0 pre r rest hpre hr1 hr2
      rw [Nat.zero_add] at hvr
      exact hvr
    have hval : EmailService.validateSendOptions o now = .error (mkValidationError
        ("bcc" ++ "[" ++ Nat.repr pre.length ++ "]" ++ ".email is not a valid email address")) := by
      unfold EmailService.validateSendOptions
      rw [if_neg hfrom, if_neg hto, htoV, hccok, hopt]
    unfold EmailService.send
    rw [hval]

/-- Witness for C4 (amended) at a concrete send call whose third `to`
recipient is invalid: the rejection carries the path-citing message and
holds for a concrete transport outcome. -/
theorem C4_invalidRecipientRejected_witness :
    EmailService.send
      { fromEmailId := "sender-1",
        «to» := [{ email := "a@b.c", name := none }, { email := "d@e.f", name := none },
                 { email := "not-an-email", name := none }],
        cc := none, bcc := none, subject := "Hi", text := some "body", html := none,
        attachments := none, scheduledAt := none, threadId := none } 0
      (TransportResult.success
        { data := ⟨"m1", "sender-1", "Hi", "2025-01-01", "sent"⟩,
          success := true, error := none, requestId := none })
      = Except.error (mkValidationError
          ("to" ++ "[" ++ Nat.repr 2 ++ "]" ++ ".email is not a valid email address")) := by
  exact (C4_invalidRecipientRejected _ 0).2.1
    [{ email := "a@b.c", name := none }, { email := "d@e.f", name := none }]
    { email := "not-an-email", name := none } []
    (by decide) rfl (by decide) (by decide) (by decide) _

/-- C3 counterexample: getAccountInfo is a public operation that, handed
an envelope with success false, raises nothing and returns a normally
parsed result — so not every public operation raises a taxonomy member on
a failed envelope. -/
theorem C3_counterexample :
    InboxSDK.getAccountInfo (TransportResult.success
      { data := { accountId := "acct", plan := "free", emailAddressLimit := 5,
                  emailAddressUsed := 1, emailsSentThisMonth := 2, emailLimitPerMonth := 100,
                  createdAt := "2025-01-01", lastActivity := "2025-01-02" },
        success := false, error := some "boom", requestId := none })
      = Except.ok { accountId := "acct", plan := "free", emailAddressLimit := 5,
                    emailAddressUsed := 1, emailsSentThisMonth := 2, emailLimitPerMonth := 100,
                    createdAt := JsDate.mk "2025-01-01", lastActivity := JsDate.mk "2025-01-02" } := by
  rfl

/-- C3 (amended): every EmailAddressService and EmailService operation
whose pre-network validation passed raises, on a success=false envelope,
exactly the domain taxonomy member for its family (EmailAddressError,
EmailSendError) with the envelope error message or a generic fallback; the
facade operation getAccountInfo does not inspect the flag and returns a
normally parsed result instead. -/
theorem C3_failedEnvelopeHandling (now : Int) :
    (∀ (o : CreateEmailAddressOptions) (resp : APIResponse EmailAddressWire),
      EmailAddressService.validateCreateOptions o = .ok () → resp.success = false →
      EmailAddressService.create o (.success resp) =
        .error (MaylError.emailAddress (jsOrOpt resp.error "Failed to create email address") none)) ∧
    (∀ (id : String) (resp : APIResponse EmailAddressWire), id ≠ "" → resp.success = false →
      EmailAddressService.get id (.success resp) =
        .error (MaylError.emailAddress (jsOrOpt resp.error "Failed to get email address") none)) ∧
    (∀ resp : APIResponse (PaginatedWire EmailAddressWire), resp.success = false →
      EmailAddressService.list (.success resp) =
        .error (MaylError.emailAddress (jsOrOpt resp.error "Failed to list email addresses") none)) ∧
    (∀ (id : String) (resp : APIResponse EmailAddressWire), id ≠ "" → resp.success = false →
      EmailAddressService.update id (.success resp) =
        .error (MaylError.emailAddress (jsOrOpt resp.error "Failed to update email address") none)) ∧
    (∀ (id : String) (resp : APIResponse Unit), id ≠ "" → resp.success = false →
      EmailAddressService.delete id (.success resp) =
        .error (MaylError.emailAddress (jsOrOpt resp.error "Failed to delete email address") none)) ∧
    (∀ (id : String) (mins : Int) (resp : APIResponse EmailAddressWire),
      id ≠ "" → 0 < mins → resp.success = false →
      EmailAddressService.extend id mins (.success resp) =
        .error (MaylError.emailAddress (jsOrOpt resp.error "Failed to extend email address") none)) ∧
    (∀ (o : SendEmailOptions) (resp : APIResponse SentEmailWire),
      EmailService.validateSendOptions o now = .ok () → resp.success = false →
      EmailService.send o now (.success resp) =
        .error (MaylError.emailSend (jsOrOpt resp.error "Failed to send email") none)) ∧
    (∀ (id : String) (resp : APIResponse SentEmailWire), id ≠ "" → resp.success = false →
      EmailService.get id (.success resp) =
        .error (MaylError.emailSend (jsOrOpt resp.error "Failed to get email") none)) ∧
    (∀ resp : APIResponse (PaginatedWire SentEmailWire), resp.success = false →
      EmailService.list (.success resp) =
        .error (MaylError.emailSend (jsOrOpt resp.error "Failed to list emails") none)) ∧
    (∀ (id : String) (resp : APIResponse Unit), id ≠ "" → resp.success = false →
      EmailService.cancel id (.success resp) =
        .error (MaylError.emailSend (jsOrOpt resp.error "Failed to cancel email") none)) ∧
    (∀ (id : String) (resp : APIResponse SentEmailWire), id ≠ "" → resp.success = false →
      EmailService.resend id (.success resp) =
        .error (MaylError.emailSend (jsOrOpt resp.error "Failed to resend email") none)) ∧
    (∀ (id : String) (resp : APIResponse DeliveryStatusWire), id ≠ "" → resp.success = false →
      EmailService.getDeliveryStatus id (.success resp) =
        .error (MaylError.emailSend (jsOrOpt resp.error "Failed to get delivery status") none)) ∧
    (∀ resp : APIResponse AccountInfoWire, ∃ a,
      InboxSDK.getAccountInfo (.success resp) = Except.ok a) := by
  refine ⟨?_, ?_, ?_, ?_, ?_, ?_, ?_, ?_, ?_, ?_, ?_, ?_, ?_⟩
  · intro o resp hval hfail
    unfold EmailAddressService.create
    rw [hval]
    simp [hfail]
  · intro id resp hid hfail
    unfold EmailAddressService.get
    rw [if_neg hid]
    simp [hfail]
  · intro resp hfail
    unfold EmailAddressService.list
    simp [hfail]
  · intro id resp hid hfail
    unfold EmailAddressService.update
    rw [if_neg hid]
    simp [hfail]
  · intro id resp hid hfail
    unfold EmailAddressService.delete
    rw [if_neg hid]
    simp [hfail]
  · intro id mins resp hid hm hfail
    unfold EmailAddressService.extend
    rw [if_neg hid, if_neg (not_le.mpr hm)]
    simp [hfail]
  · intro o resp hval hfail
    unfold EmailService.send
    rw [hval]
    simp [hfail]
  · intro id resp hid hfail
    unfold EmailService.get
    rw [if_neg hid]
    simp [hfail]
  · intro resp hfail
    unfold EmailService.list
    simp [hfail]
  · intro id resp hid hfail
    unfold EmailService.cancel
    rw [if_neg hid]
    simp [hfail]
  · intro id resp hid hfail
    unfold EmailService.resend
    rw [if_neg hid]
    simp [hfail]
  · intro id resp hid hfail
    unfold EmailService.getDeliveryStatus
    rw [if_neg hid]
    simp [hfail]
  · intro resp
    exact ⟨_, rfl⟩

/-- Witness for C3 (amended) at concrete inputs: a failed envelope makes
create raise EmailAddressError with the envelope message, and makes send
raise EmailSendError with the fallback message. -/
theorem C3_failedEnvelopeHandling_witness :
    EmailAddressService.create
      { type := AddressType.temporary, prefix_ := none, domain := none,
        expirationMinutes := some (JsNumber.num 30) }
      (TransportResult.success
        { data := ⟨"e1", "a@b.c", "temporary", "active", "2025-01-01", none⟩,
          success := false, error := some "quota exceeded", requestId := none }) =
      Except.error (MaylError.emailAddress "quota exceeded" none) ∧
    EmailService.send
      { fromEmailId := "f1", «to» := [{ email := "a@b.c", name := none }],
        cc := none, bcc := none, subject := "s", text := some "t", html := none,
        attachments := none, scheduledAt := none, threadId := none } 0
      (TransportResult.success
        { data := ⟨"m1", "f1", "s", "2025-01-01", "failed"⟩,
          success := false, error := none, requestId := none }) =
      Except.error (MaylError.emailSend "Failed to send email" none) := by
  constructor
  · exact ((C3_failedEnvelopeHandling 0).1 _ _ (by rfl) rfl).trans rfl
  · exact ((C3_failedEnvelopeHandling 0).2.2.2.2.2.2.1 _ _ (by rfl) rfl).trans rfl

/-- C9: healthCheck never raises: it is a total function into the
structured result; on a transport failure it returns an unhealthy result
carrying the error message (or a fallback for an empty message); every
other exposed operation propagates a transport-layer error unchanged once
its pre-network validation has passed, so healthCheck is the sole
operation converting an error into a non-throwing degraded result. -/
theorem C9_healthCheckNeverRaises (now : JsDate) :
    (∀ e : MaylError, InboxSDK.healthCheck now (.failure e) =
      { status := HealthStatus.unhealthy, message := jsOrStr e.message "Health check failed",
        timestamp := now, apiVersion := none, accountId := none }) ∧
    (∀ e : MaylError, e.message ≠ "" →
      (InboxSDK.healthCheck now (.failure e)).status = HealthStatus.unhealthy ∧
      (InboxSDK.healthCheck now (.failure e)).message = e.message) ∧
    (∀ (o : CreateEmailAddressOptions) (e : MaylError),
      EmailAddressService.validateCreateOptions o = .ok () →
      EmailAddressService.create o (.failure e) = .error e) ∧
    (∀ (id : String) (e : MaylError), id ≠ "" →
      EmailAddressService.get id (.failure e) = .error e) ∧
    (∀ e : MaylError,
      EmailAddressService.list (.failure e) = .error e) ∧
    (∀ (id : String) (e : MaylError), id ≠ "" →
      EmailAddressService.update id (.failure e) = .error e) ∧
    (∀ (id : String) (e : MaylError), id ≠ "" →
      EmailAddressService.delete id (.failure e) = .error e) ∧
    (∀ (id : String) (mins : Int) (e : MaylError), id ≠ "" → 0 < mins →
      EmailAddressService.extend id mins (.failure e) = .error e) ∧
    (∀ (o : SendEmailOptions) (now2 : Int) (e : MaylError),
      EmailService.validateSendOptions o now2 = .ok () →
      EmailService.send o now2 (.failure e) = .error e) ∧
    (∀ (id : String) (e : MaylError), id ≠ "" →
      EmailService.get id (.failure e) = .error e) ∧
    (∀ e : MaylError,
      EmailService.list (.failure e) = .error e) ∧
    (∀ (id : String) (e : MaylError), id ≠ "" →
      EmailService.cancel id (.failure e) = .error e) ∧
    (∀ (id : String) (e : MaylError), id ≠ "" →
      EmailService.resend id (.failure e) = .error e) ∧
    (∀ (id : String) (e : MaylError), id ≠ "" →
      EmailService.getDeliveryStatus id (.failure e) = .error e) ∧
    (∀ e : MaylError, InboxSDK.getAccountInfo (.failure e) = .error e) := by
  refine ⟨fun e => rfl, ?_, ?_, ?_, fun e => rfl, ?_, ?_, ?_, ?_, ?_, fun e => rfl, ?_, ?_, ?_,
    fun e => rfl⟩
  · intro e he
    refine ⟨rfl, ?_⟩
    show jsOrStr e.message "Health check failed" = e.message
    unfold jsOrStr
    rw [if_neg he]
  · intro o e hval
    unfold EmailAddressService.create
    rw [hval]
  · intro id e hid
    unfold EmailAddressService.get
    rw [if_neg hid]
  · intro id e hid
    unfold EmailAddressService.update
    rw [if_neg hid]
  · intro id e hid
    unfold EmailAddressService.delete
    rw [if_neg hid]
  · intro id mins e hid hm
    unfold EmailAddressService.extend
    rw [if_neg hid, if_neg (not_le.mpr hm)]
  · intro o now2 e hval
    unfold EmailService.send
    rw [hval]
  · intro id e hid
    unfold EmailService.get
    rw [if_neg hid]
  · intro id e hid
    unfold EmailService.cancel
    rw [if_neg hid]
  · intro id e hid
    unfold EmailService.resend
    rw [if_neg hid]
  · intro id e hid
    unfold EmailService.getDeliveryStatus
    rw [if_neg hid]

/-- Witness for C9 at concrete inputs: a network failure makes
healthCheck return the unhealthy result carrying the error message, while
the same failure is propagated unchanged by an email-address get. -/
theorem C9_healthCheckNeverRaises_witness :
    InboxSDK.healthCheck (JsDate.mk "2025-06-01") (.failure (MaylError.network "conn reset" none)) =
      { status := HealthStatus.unhealthy, message := "conn reset",
        timestamp := JsDate.mk "2025-06-01", apiVersion := none, accountId := none } ∧
    (InboxSDK.healthCheck (JsDate.mk "2025-06-01")
      (.failure (MaylError.network "conn reset" none))).message = "conn reset" ∧
    EmailAddressService.get "addr-1" (.failure (MaylError.network "conn reset" none)) =
      .error (MaylError.network "conn reset" none) := by
  refine ⟨?_, ?_, ?_⟩
  · exact ((C9_healthCheckNeverRaises (JsDate.mk "2025-06-01")).1
      (MaylError.network "conn reset" none)).trans (by decide)
  · exact (((C9_healthCheckNeverRaises (JsDate.mk "2025-06-01")).2.1
      (MaylError.network "conn reset" none)) (by decide)).2
  · exact (C9_healthCheckNeverRaises (JsDate.mk "2025-06-01")).2.2.2.1 "addr-1"
      (MaylError.network "conn reset" none) (by decide)

/-- C10: healthCheck never inspects the envelope success or error fields:
for every received envelope (in particular one whose success flag is
false) it returns a healthy result whose message is the envelope data
message or the fallback. -/
theorem C10_healthCheckIgnoresSuccessFlag :
    (∀ (now : JsDate) (resp : APIResponse HealthData),
      InboxSDK.healthCheck now (.success resp) =
        { status := HealthStatus.healthy,
          message := jsOrStr resp.data.message "API is healthy",
          timestamp := now, apiVersion := some resp.data.apiVersion,
          accountId := some resp.data.accountId }) ∧
    (∀ (now : JsDate) (d : HealthData) (er : Option String) (rid : Option String),
      (InboxSDK.healthCheck now
        (.success { data := d, success := false, error := er, requestId := rid })).status =
        HealthStatus.healthy) := by
  exact ⟨fun now resp => rfl, fun now d er rid => rfl⟩
